import Mathlib

/-!
Verification development for the napari-roi-manager repository.

The development shallowly embeds the two cores of the program:

* the ImageJ geometry codec (`src/napari_roi_manager/ij/_convert.py`), embedded
  twice: in exact rational arithmetic for the branches that are exact (used for
  executable witnesses), and over the real numbers for the rotated-ellipse
  branches, whose aspect ratio and sampled polygon need square roots and
  trigonometry;
* the ROI collection state machine (`src/napari_roi_manager/layers/_layer.py`
  together with `src/napari_roi_manager/_dataclasses.py` and the batch reader in
  `src/napari_roi_manager/widgets/_roi_manager.py`).

External collaborators (the napari `Shapes` base layer and the `roifile`
library) are modelled at the interface the specification gives them; each such
definition carries a doc comment saying exactly what is modelled.
-/

/-! ## Byte-level packing of the rotated-ROI aspect ratio

`encode_rotated_roi_width` / `decode_rotated_roi_width` in `ij/_convert.py`
reinterpret the four bytes of a packed IEEE-754 binary32 float as two unsigned
bytes plus one signed 16-bit integer (and back), honouring a byte order.  The
float is represented here by its 32-bit pattern (a natural number below 2^32),
which is the exact content the byte strings carry. -/

/-- Byte order marker: the struct format characters `>` (big) and `<` (little). -/
inductive ByteOrder
  | big
  | little
deriving DecidableEq

/-- Pack a 32-bit pattern into its four bytes in stream order, as `struct.pack`
does for format `f` under the given byte order. -/
def packF32 (bits : ℕ) : ByteOrder → ℕ × ℕ × ℕ × ℕ
  | .big => (bits / 16777216 % 256, bits / 65536 % 256, bits / 256 % 256, bits % 256)
  | .little => (bits % 256, bits / 256 % 256, bits / 65536 % 256, bits / 16777216 % 256)

/-- Reassemble a 32-bit pattern from four bytes in stream order (`struct.unpack`
with format `f`). -/
def unpackF32 (b : ℕ × ℕ × ℕ × ℕ) : ByteOrder → ℕ
  | .big => b.1 * 16777216 + b.2.1 * 65536 + b.2.2.1 * 256 + b.2.2.2
  | .little => b.1 + b.2.1 * 256 + b.2.2.1 * 65536 + b.2.2.2 * 16777216

/-- Read a 16-bit word from two stream-order bytes under a byte order. -/
def word16OfBytes (b0 b1 : ℕ) : ByteOrder → ℕ
  | .big => b0 * 256 + b1
  | .little => b0 + b1 * 256

/-- Split a 16-bit word into two stream-order bytes under a byte order. -/
def bytesOfWord16 (w : ℕ) : ByteOrder → ℕ × ℕ
  | .big => (w / 256 % 256, w % 256)
  | .little => (w % 256, w / 256 % 256)

/-- Two's-complement reading of a 16-bit word, as `struct.unpack` format `h`. -/
def toSigned16 (u : ℕ) : ℤ :=
  if u < 32768 then (u : ℤ) else (u : ℤ) - 65536

/-- Two's-complement writing of a signed 16-bit integer, as `struct.pack`
format `h` (the word the two bytes encode). -/
def ofSigned16 (h : ℤ) : ℕ :=
  (h % 65536).toNat

/-- Source `encode_rotated_roi_width`: pack the float (here: its bit pattern)
with format `f`, then unpack the same four bytes with format `BBh`. -/
def encode_rotated_roi_width (bits : ℕ) (bo : ByteOrder) : ℕ × ℕ × ℤ :=
  let b := packF32 bits bo
  (b.1, b.2.1, toSigned16 (word16OfBytes b.2.2.1 b.2.2.2 bo))

/-- Source `decode_rotated_roi_width`: pack the three integers with format
`BBh`, then unpack the same four bytes with format `f` (here: to the bit
pattern of the float). -/
def decode_rotated_roi_width (ints : ℕ × ℕ × ℤ) (bo : ByteOrder) : ℕ :=
  let hb := bytesOfWord16 (ofSigned16 ints.2.2) bo
  unpackF32 (ints.1, ints.2.1, hb.1, hb.2) bo

/-- Exact rational value of an IEEE-754 binary32 bit pattern.  Normal values
are `(-1)^s * (2^23 + frac) * 2^(exp - 150)`, subnormals `(-1)^s * frac *
2^(-149)`.  Exponent 255 (infinities and NaNs) has no finite value and is
mapped to 0; aspect ratios are finite, so that case is never taken on the
codec paths below. -/
def f32BitsToRat (bits : ℕ) : ℚ :=
  let sign : ℚ := if bits / 2 ^ 31 % 2 = 1 then -1 else 1
  let expo := bits / 2 ^ 23 % 2 ^ 8
  let frac : ℚ := (bits % 2 ^ 23 : ℕ)
  if expo = 0 then sign * frac / 2 ^ 149
  else if expo = 255 then 0
  else sign * (2 ^ 23 + frac) * 2 ^ expo / 2 ^ 150

/-! ## The ImageJ record and the decoding direction, in exact arithmetic

`ImagejRoi` (from the `roifile` library) is a flat record of header fields plus
coordinate lists.  The fields below are exactly the ones the codec in
`ij/_convert.py` reads or writes.  Coordinates in the record are `(x, y)`
pairs; the internal shape representation uses `(row, column) = (y, x)`.

The source field `arrow_style_or_aspect_ratio` is carried here under the
shortened name `arrow_style_or_aspect`; it holds the same packed content. -/

/-- The ImageJ ROI types used by the codec (`roifile.ROI_TYPE`). -/
inductive ROI_TYPE
  | POLYGON
  | RECT
  | OVAL
  | LINE
  | FREELINE
  | POLYLINE
  | NOROI
  | FREEHAND
  | TRACED
  | ANGLE
  | POINT
deriving DecidableEq

/-- The ImageJ ROI subtypes used by the codec (`roifile.ROI_SUBTYPE`). -/
inductive ROI_SUBTYPE
  | UNDEFINED
  | TEXT
  | ARROW
  | ELLIPSE
  | IMAGE
  | ROTATED_RECT
deriving DecidableEq

/-- One internal shape: source dataclass `RoiTuple` (`_dataclasses.py`).
Coordinates are `(row, column)` pairs. -/
structure RoiTuple where
  data : List (ℚ × ℚ)
  shape_type : String
  name : Option String := none
  multidim : List ℤ := []
deriving DecidableEq

/-- The ImageJ ROI record (`roifile.ImagejRoi`), restricted to the fields the
codec touches.  Integer bounds (`left`, `top`, `right`, `bottom`) coexist with
sub-pixel float bounds (`xd`, `yd`, `widthd`, `heightd`); a resolution flag
says which ones are authoritative on decode. -/
structure IjRoi where
  byteorder : ByteOrder := .big
  roitype : ROI_TYPE := .POLYGON
  subtype : ROI_SUBTYPE := .UNDEFINED
  name : Option String := none
  position : ℤ := 0
  t_position : ℤ := 0
  z_position : ℤ := 0
  subpixelresolution : Bool := false
  left : ℤ := 0
  top : ℤ := 0
  right : ℤ := 0
  bottom : ℤ := 0
  xd : ℚ := 0
  yd : ℚ := 0
  widthd : ℚ := 0
  heightd : ℚ := 0
  x1 : ℚ := 0
  y1 : ℚ := 0
  x2 : ℚ := 0
  y2 : ℚ := 0
  arrow_style_or_aspect : ℕ := 0
  arrow_head_size : ℕ := 0
  rounded_rect_arc_size : ℤ := 0
  integer_coordinates : List (ℤ × ℤ) := []
  subpixel_coordinates : List (ℚ × ℚ) := []
  n_coordinates : ℕ := 0
deriving DecidableEq

/-- Source helper `_get_coords`: take the sub-pixel coordinates, or the integer
coordinates offset by the record's `(left, top)`, and reverse the axis order
(`xy[:, ::-1]`), turning `(x, y)` into `(row, column)`. -/
def _get_coords (r : IjRoi) : List (ℚ × ℚ) :=
  let xy : List (ℚ × ℚ) :=
    if r.subpixelresolution then r.subpixel_coordinates
    else r.integer_coordinates.map (fun p => (((p.1 + r.left : ℤ) : ℚ), ((p.2 + r.top : ℤ) : ℚ)))
  xy.map (fun p => (p.2, p.1))

/-- Source `roi_to_shape` in exact rational arithmetic.  `Except.error` models
the `ValueError` raised on unsupported combinations; `Except.ok none` models
the POINT branch, which issues a non-fatal `UserWarning` and returns `None`.

In the rotated-ellipse branch the source computes the lateral vector as
`rot90(v) / norm(v) * (norm(v) * ratio)`; the two occurrences of `norm(v)`
(a square root) cancel exactly, and the branch is embedded in the cancelled
form `rot90(v) * ratio`, which is its value in exact arithmetic.  The same
branch is embedded uncancelled, over the real numbers, as
`roi_to_shape_ellipse_rotated` below. -/
def roi_to_shape (r : IjRoi) : Except String (Option RoiTuple) :=
  let multidim : List ℤ := [r.position, r.t_position, r.z_position]
  if r.subtype = .UNDEFINED then
    if r.roitype = .RECT then
      let b : ℚ × ℚ × ℚ × ℚ :=
        if r.subpixelresolution then (r.xd, r.yd, r.widthd, r.heightd)
        else ((r.left : ℚ), (r.top : ℚ), ((r.right - r.left : ℤ) : ℚ), ((r.bottom - r.top : ℤ) : ℚ))
      let x := b.1
      let y := b.2.1
      let width := b.2.2.1
      let height := b.2.2.2
      let data := [(y, x), (y, x + width), (y + height, x + width), (y + height, x)]
      .ok (some { data := data.map (fun p => (p.1 - 1/2, p.2 - 1/2)),
                  shape_type := "rectangle", name := r.name, multidim := multidim })
    else if r.roitype = .LINE then
      .ok (some { data := [(r.y1, r.x1), (r.y2, r.x2)],
                  shape_type := "line", name := r.name, multidim := multidim })
    else if r.roitype = .POINT then
      .ok none
    else if r.roitype = .POLYGON ∨ r.roitype = .FREEHAND then
      .ok (some { data := _get_coords r,
                  shape_type := "polygon", name := r.name, multidim := multidim })
    else if r.roitype = .POLYLINE ∨ r.roitype = .FREELINE then
      .ok (some { data := _get_coords r,
                  shape_type := "path", name := r.name, multidim := multidim })
    else if r.roitype = .OVAL then
      let b : ℚ × ℚ × ℚ × ℚ :=
        if r.subpixelresolution then (r.xd, r.yd, r.widthd, r.heightd)
        else ((r.left : ℚ), (r.top : ℚ), ((r.right - r.left : ℤ) : ℚ), ((r.bottom - r.top : ℤ) : ℚ))
      let x := b.1
      let y := b.2.1
      let width := b.2.2.1
      let height := b.2.2.2
      let data := [(y, x), (y, x + width), (y + height, x + width), (y + height, x)]
      .ok (some { data := data.map (fun p => (p.1 - 1/2, p.2 - 1/2)),
                  shape_type := "ellipse", name := r.name, multidim := multidim })
    else
      .error "Unsupported ROI type"
  else if r.subtype = .ROTATED_RECT then
    .ok (some { data := _get_coords r,
                shape_type := "rectangle", name := r.name, multidim := multidim })
  else if r.subtype = .ELLIPSE then
    let ratioVal := f32BitsToRat (decode_rotated_roi_width
      (r.arrow_style_or_aspect, r.arrow_head_size, r.rounded_rect_arc_size) r.byteorder)
    let start : ℚ × ℚ := (r.y1 - 1, r.x1 - 1)
    let stop : ℚ × ℚ := (r.y2 - 1, r.x2 - 1)
    let vlon : ℚ × ℚ := (stop.1 - start.1, stop.2 - start.2)
    let vlat : ℚ × ℚ := (-vlon.2 * ratioVal, vlon.1 * ratioVal)
    let r00 : ℚ × ℚ := (start.1 - vlat.1 / 2, start.2 - vlat.2 / 2)
    let r01 : ℚ × ℚ := (start.1 + vlat.1 / 2, start.2 + vlat.2 / 2)
    let r10 : ℚ × ℚ := (stop.1 - vlat.1 / 2, stop.2 - vlat.2 / 2)
    let r11 : ℚ × ℚ := (stop.1 + vlat.1 / 2, stop.2 + vlat.2 / 2)
    .ok (some { data := [r00, r01, r11, r10],
                shape_type := "ellipse", name := r.name, multidim := multidim })
  else
    .error "Unsupported ROI subtype"

/-! ## The encoding direction for axis-aligned rectangles -/

/-- Minimum of a coordinate list (`ndarray.min()`); 0 on the empty list, which
the codec never passes. -/
def listMin (l : List ℚ) : ℚ :=
  match l with
  | [] => 0
  | h :: t => t.foldl min h

/-- Maximum of a coordinate list (`ndarray.max()`). -/
def listMax (l : List ℚ) : ℚ :=
  match l with
  | [] => 0
  | h :: t => t.foldl max h

/-- Source helper `_get_multidim_kwargs`, resolved to the `(position, t, z)`
fields it populates; absent axes keep the record's defaults (0). -/
def _get_multidim_kwargs (s : RoiTuple) : ℤ × ℤ × ℤ :=
  match s.multidim with
  | [] => (0, 0, 0)
  | [z] => (0, 0, z)
  | [t, z] => (0, t, z)
  | p :: t :: z :: _ => (p, t, z)

/-- External collaborator `roifile.ImagejRoi.frompoints`, modelled at its
interface: the record stores the `(x, y)` point list and the integer bounding
box of the points (floor of the minima, ceiling of the maxima).  The
repository's own ImageJ round-trip test passes exactly when re-decoding a
record produced here goes through the integer-bounds path, so the modelled
record leaves the sub-pixel resolution flag unset. -/
def frompoints (pts : List (ℚ × ℚ)) (name : Option String) (mdim : ℤ × ℤ × ℤ) : IjRoi :=
  { roitype := .FREEHAND
    name := name
    position := mdim.1
    t_position := mdim.2.1
    z_position := mdim.2.2
    subpixelresolution := false
    left := ⌊listMin (pts.map Prod.fst)⌋
    top := ⌊listMin (pts.map Prod.snd)⌋
    right := ⌈listMax (pts.map Prod.fst)⌉
    bottom := ⌈listMax (pts.map Prod.snd)⌉
    subpixel_coordinates := pts
    n_coordinates := pts.length }

/-- The axis-aligned branch of `shape_to_roi` for `shape_type == "rectangle"`
(`ij/_convert.py` lines 149-164): bounding box from the corner extrema, corner
points stored shifted by `+0.5`, integer-precision bounds derived from the
shifted points by `frompoints`, sub-pixel bounds (`xd`, `yd`, `widthd`,
`heightd`) and the line endpoints set to the unshifted extrema.  The rotated
branch of the rectangle case (and the full dispatch) needs square roots and is
embedded over the real numbers as `shape_to_roi_ellipse_rotated` /
`shape_to_roiR_center` below. -/
def shape_to_roi_rect_axis_aligned (s : RoiTuple) : IjRoi :=
  let ys := s.data.map Prod.fst
  let xs := s.data.map Prod.snd
  let y0 := listMin ys
  let y1 := listMax ys
  let x0 := listMin xs
  let x1 := listMax xs
  let pts : List (ℚ × ℚ) := [(x0, y0), (x1, y0), (x1, y1), (x0, y1)]
  let roi := frompoints (pts.map (fun p => (p.1 + 1/2, p.2 + 1/2))) s.name (_get_multidim_kwargs s)
  { roi with
      roitype := .RECT
      y1 := y0
      yd := y0
      x1 := x0
      xd := x0
      y2 := y1
      x2 := x1
      widthd := x1 - x0
      heightd := y1 - y0 }

/-! ## Batch decoding (widget `read_ij_roi`) -/

/-- The list comprehension `[roi_to_shape(roi) for roi in ijrois]` in
`QRoiManager.read_ij_roi`: decode the records left to right; a hard decode
error aborts the whole batch, exactly as the raised `ValueError` would. -/
def decodeAll : List IjRoi → Except String (List (Option RoiTuple))
  | [] => .ok []
  | r :: rs => do
    let s ← roi_to_shape r
    let rest ← decodeAll rs
    pure (s :: rest)

/-- Source `QRoiManager.read_ij_roi`, reduced to the collection it builds:
decode every record, then add every shape that is not `None`, skipping the
warned-about ones. -/
def read_ij_roi (rois : List IjRoi) : Except String (List RoiTuple) := do
  let shapes ← decodeAll rois
  pure (shapes.filterMap id)

/-! ## The rotated-ellipse codec branches, over the real numbers

The rotated-ellipse encode branch of `shape_to_roi` (`ij/_convert.py` lines
229-261) computes semi-axes and a rotation angle with square roots and
`arctan2`, and samples the ellipse with sine and cosine; the matching decode
branch (lines 109-137) divides by a Euclidean norm.  These branches are
embedded over `ℝ`.  The packed aspect-ratio channel (three header integers;
see `encode_rotated_roi_width` above and its inverse theorem below) is carried
by value in this model. -/

/-- Python `numpy.arctan2 y x`: the argument of the complex number `x + y*I`. -/
noncomputable def arctan2 (y x : ℝ) : ℝ :=
  Complex.arg ⟨x, y⟩

/-- The fields of the ImageJ record that the rotated-ellipse codec path reads
or writes, with real-valued coordinates. -/
structure IjRoiR where
  roitype : ROI_TYPE := .FREEHAND
  subtype : ROI_SUBTYPE := .ELLIPSE
  x1 : ℝ := 0
  y1 : ℝ := 0
  x2 : ℝ := 0
  y2 : ℝ := 0
  aspect : ℝ := 0
  sampled : List (ℝ × ℝ) := []

/-- The rotated-ellipse branch of `shape_to_roi`, over `ℝ`: given the four
corner points `(row, column)` of the bounding parallelogram, store the 72
sampled boundary points, the midpoints of the two short edges as the axis
endpoints `(x1, y1)`, `(x2, y2)`, and the aspect ratio `b / a`. -/
noncomputable def shape_to_roi_ellipse_rotated (corners : List (ℝ × ℝ)) : IjRoiR :=
  let ys := corners.map Prod.fst
  let xs := corners.map Prod.snd
  let b := Real.sqrt ((xs.getD 0 0 - xs.getD 1 0) ^ 2 + (ys.getD 0 0 - ys.getD 1 0) ^ 2) / 2
  let a := Real.sqrt ((xs.getD 1 0 - xs.getD 2 0) ^ 2 + (ys.getD 1 0 - ys.getD 2 0) ^ 2) / 2
  let phi := -arctan2 (ys.getD 1 0 - ys.getD 2 0) (xs.getD 1 0 - xs.getD 2 0)
  let x1 := (xs.getD 0 0 + xs.getD 1 0) / 2
  let y1 := (ys.getD 0 0 + ys.getD 1 0) / 2
  let x2 := (xs.getD 2 0 + xs.getD 3 0) / 2
  let y2 := (ys.getD 2 0 + ys.getD 3 0) / 2
  let center : ℝ × ℝ := ((x1 + x2) / 2, (y1 + y2) / 2)
  let sampled := (List.range 72).map (fun k =>
    let t := 2 * Real.pi * k / 72
    (a * Real.cos t * Real.cos phi - b * Real.sin t * Real.sin phi + center.1,
     a * Real.cos t * Real.sin phi + b * Real.sin t * Real.cos phi + center.2))
  { x1 := x1, y1 := y1, x2 := x2, y2 := y2, aspect := b / a, sampled := sampled }

/-- The ELLIPSE-subtype branch of `roi_to_shape`, over `ℝ`: rebuild the four
corners `start ∓ lateral/2`, `stop ∓ lateral/2` from the stored axis endpoints
(each shifted by `-1` in both coordinates) and the aspect ratio. -/
noncomputable def roi_to_shape_ellipse_rotated (r : IjRoiR) : List (ℝ × ℝ) :=
  let start : ℝ × ℝ := (r.y1 - 1, r.x1 - 1)
  let stop : ℝ × ℝ := (r.y2 - 1, r.x2 - 1)
  let length := Real.sqrt ((stop.1 - start.1) ^ 2 + (stop.2 - start.2) ^ 2)
  let width := length * r.aspect
  let vlon : ℝ × ℝ := (stop.1 - start.1, stop.2 - start.2)
  let nrm := Real.sqrt (vlon.1 ^ 2 + vlon.2 ^ 2)
  let vlat : ℝ × ℝ := (-vlon.2 / nrm * width, vlon.1 / nrm * width)
  [(start.1 - vlat.1 / 2, start.2 - vlat.2 / 2),
   (start.1 + vlat.1 / 2, start.2 + vlat.2 / 2),
   (stop.1 + vlat.1 / 2, stop.2 + vlat.2 / 2),
   (stop.1 - vlat.1 / 2, stop.2 - vlat.2 / 2)]

/-- Mean of a list of points (the center of a shape's corner list). -/
noncomputable def centerOf (pts : List (ℝ × ℝ)) : ℝ × ℝ :=
  ((pts.map Prod.fst).sum / pts.length, (pts.map Prod.snd).sum / pts.length)

/-! ## The ROI collection state machine

`RoiManagerLayer` (`layers/_layer.py`) subclasses the napari `Shapes` layer.
The spec treats the base layer as an external collaborator that keeps an
ordered shape list, a parallel shape-type list, a feature table (here: its
`id` column, the only column present headless) and a selected-index set, and
that synchronously notifies `adding / added / removing / removed` data events;
the subclass's `_on_data_change` handler runs on those events unless an event
blocker is active.  The state below also carries the feature default for the
`id` column and the log of emitted `roi_added` / `roi_removed` notifications.

Shape payloads are opaque to the state machine and are modelled as lists of
rational `(row, column)` points. -/

/-- One shape's coordinate array, as stored in the live list. -/
abbrev ShapeData := List (ℚ × ℚ)

/-- Source dataclass `HiddenShapes` (`_dataclasses.py`): the snapshot of the
live state parked while `show_all` is off.  The feature table is represented
by its `id` column rows. -/
structure HiddenShapes where
  data : List ShapeData := []
  shape_type : List String := []
  selected_data : Finset ℕ := ∅
  features : List ℕ := []
  current_item : Option ℕ := none
  display_text : Bool := false
deriving DecidableEq

/-- Source `HiddenShapes.clear`: empty the data list, the shape-type list and
the current-item pointer (and nothing else). -/
def HiddenShapes.clear (h : HiddenShapes) : HiddenShapes :=
  { h with data := [], shape_type := [], current_item := none }

/-- Source `HiddenShapes.update`: replace the whole snapshot. -/
def HiddenShapes.update (h : HiddenShapes) (data : List ShapeData) (features : List ℕ)
    (shape_type : List String) (selected_data : Finset ℕ) (current_item : Option ℕ)
    (display_text : Bool) : HiddenShapes :=
  { h with data := data, features := features, shape_type := shape_type,
           selected_data := selected_data, current_item := current_item,
           display_text := display_text }

/-- Source `HiddenShapes.pop`: remove and return the shape and kind at `idx`,
drop the matching feature row, discard `idx` from the selection.  Python
`list.pop` raises on an out-of-range index; the callers only pass in-range
indices and the model totalises with defaults. -/
def HiddenShapes.pop (h : HiddenShapes) (idx : ℕ) : (ShapeData × String) × HiddenShapes :=
  ((h.data.getD idx [], h.shape_type.getD idx ""),
   { h with data := h.data.eraseIdx idx, shape_type := h.shape_type.eraseIdx idx,
            features := h.features.eraseIdx idx,
            selected_data := h.selected_data.erase idx })

/-- Source `HiddenShapes.len`. -/
def HiddenShapes.len (h : HiddenShapes) : ℕ :=
  h.data.length

/-- The notifications the layer raises for the list-widget collaborator. -/
inductive Notification
  | roiAdded (index : ℕ) (shape_type : String)
  | roiRemoved (indices : Finset ℕ)
deriving DecidableEq

/-- The full state of `RoiManagerLayer`: the napari base-layer state (shape
list, shape types, feature `id` column, selection, feature default) plus the
subclass fields `_current_item`, `_show_all`, `_hidden_shapes`, the text
visibility, and the log of emitted notifications. -/
structure Layer where
  data : List ShapeData := []
  shape_type : List String := []
  features : List ℕ := []
  selected_data : Finset ℕ := ∅
  current_item : Option ℕ := none
  show_all : Bool := true
  hidden : HiddenShapes := {}
  text_visible : Bool := false
  feature_default_id : ℕ := 0
  notifications : List Notification := []
deriving DecidableEq

/-- Append a notification to the log (synchronous event emission). -/
def emit (L : Layer) (n : Notification) : Layer :=
  { L with notifications := L.notifications ++ [n] }

/-- Remove from a list the entries whose positions lie in `s` (the base
layer's removal of a set of shape indices). -/
def removeIdxs {α : Type} (xs : List α) (s : Finset ℕ) : List α :=
  (xs.enum.filter (fun p => p.1 ∉ s)).map Prod.snd

/-- Source `_relabel_feature_id`: overwrite the feature `id` column with
`0 .. nrows-1`. -/
def relabel_feature_id (L : Layer) : Layer :=
  { L with features := List.range L.features.length }

/-- The REMOVED branch of `_on_data_change`: clear `current_item` if it was
removed, otherwise shift it down by the number of removed indices below it,
then relabel the feature ids.  (`n_smaller` counts indices strictly below the
current item, so the Python subtraction never goes negative and agrees with
the natural subtraction here.) -/
def handle_removed (L : Layer) (idxs : Finset ℕ) : Layer :=
  let L1 :=
    match L.current_item with
    | none => L
    | some c =>
      if c ∈ idxs then { L with current_item := none }
      else { L with current_item := some (c - (idxs.filter (fun i => i < c)).card) }
  relabel_feature_id L1

/-- External collaborator: napari `Shapes.remove_selected` (the `super()` call).
If the selection is nonempty it emits REMOVING (the handler ignores it),
removes the selected rows from the shape list, the shape-type list and the
feature table, clears the selection, and emits REMOVED with the removed
indices; the subclass handler runs on REMOVED unless `blocked`. -/
def super_remove_selected (L : Layer) (blocked : Bool) : Layer :=
  if L.selected_data = ∅ then L
  else
    let removed := L.selected_data
    let L1 := { L with data := removeIdxs L.data removed,
                       shape_type := removeIdxs L.shape_type removed,
                       features := removeIdxs L.features removed,
                       selected_data := (∅ : Finset ℕ) }
    if blocked then L1 else handle_removed L1 removed

/-- Source `_remove_current`: under a data-event blocker, select only the
current item and remove it via the base layer.  (`_current_item` itself is not
cleared here; the callers overwrite it afterwards.) -/
def remove_current (L : Layer) : Layer :=
  match L.current_item with
  | none => L
  | some c => super_remove_selected { L with selected_data := {c} } true

/-- The ADDING branch of `_on_data_change`: drop the previous current item;
when `show_all` is off additionally select every live shape and remove them
under a blocker (the draw area is private); then reset the feature default
`id` to the (post-removal) shape count. -/
def handle_adding (L : Layer) : Layer :=
  let L1 := remove_current L
  let L2 :=
    if L1.show_all then L1
    else super_remove_selected { L1 with selected_data := Finset.range L1.data.length } true
  { L2 with feature_default_id := L2.data.length }

/-- The ADDED branch of `_on_data_change`: the new shape's index becomes the
current item, only it is selected, and the feature ids are relabelled. -/
def handle_added (L : Layer) (idx : ℕ) : Layer :=
  relabel_feature_id { L with current_item := some idx, selected_data := {idx} }

/-- External collaborator: napari `Shapes.add` for a single shape.  Emits
ADDING, appends the shape, its kind and a feature row carrying the current
feature default, then emits ADDED with index `-1` (resolved by the handler to
the last index); the handler runs unless `blocked`. -/
def add_shape (L : Layer) (s : ShapeData) (kind : String) (blocked : Bool) : Layer :=
  let L1 := if blocked then L else handle_adding L
  let L2 := { L1 with data := L1.data ++ [s], shape_type := L1.shape_type ++ [kind],
                      features := L1.features ++ [L1.feature_default_id] }
  if blocked then L2 else handle_added L2 (L2.data.length - 1)

/-- Resize a list to `n` entries, keeping the existing prefix and padding with
a default (the external feature table's and shape-type list's resize). -/
def resize_list {α : Type} (xs : List α) (n : ℕ) (dflt : α) : List α :=
  if xs.length ≤ n then xs ++ List.replicate (n - xs.length) dflt else xs.take n

/-- External collaborator: the napari `Shapes.data` setter.  It emits
ADDING/ADDED when the shape count grows (with `data_indices` covering the new
range, so the handler resolves index 0), REMOVING/REMOVED with the new index
range when it shrinks, and CHANGING/CHANGED (which the handler ignores)
otherwise; the shape-type list and the feature table are resized to the new
count, keeping existing prefix rows and padding with defaults. -/
def set_data (L : Layer) (d : List ShapeData) : Layer :=
  let n := d.length
  if L.data.length < n then
    let L1 := handle_adding L
    let L2 := { L1 with data := d,
                        shape_type := resize_list L1.shape_type n "rectangle",
                        features := resize_list L1.features n L1.feature_default_id }
    handle_added L2 0
  else if n < L.data.length then
    let L1 := { L with data := d,
                       shape_type := resize_list L.shape_type n "rectangle",
                       features := resize_list L.features n L.feature_default_id }
    handle_removed L1 (Finset.range n)
  else
    { L with data := d,
             shape_type := resize_list L.shape_type n "rectangle",
             features := resize_list L.features n L.feature_default_id }

/-- External collaborator: the napari `features` setter.  `_validate_features`
reindexes the assigned table to `range(nshapes)` rows: surplus rows are
dropped; a missing row would be padded (with an empty default). -/
def set_features (L : Layer) (rows : List ℕ) : Layer :=
  { L with features := resize_list rows L.data.length 0 }

/-- Source `register_roi`: with a current item, emit `roi_added` for it; when
`show_all` is off append the shape and its kind to the hidden buffer (the live
copy stays in place), otherwise clear the selection; finally clear
`current_item`. -/
def register_roi (L : Layer) : Layer :=
  match L.current_item with
  | some c =>
    let L1 := emit L (.roiAdded c (L.shape_type.getD c ""))
    let L2 :=
      if L1.show_all then { L1 with selected_data := (∅ : Finset ℕ) }
      else
        { L1 with hidden :=
            { L1.hidden with
                data := L1.hidden.data ++ [L1.data.getD c []],
                shape_type := L1.hidden.shape_type ++ [L1.shape_type.getD c ""] } }
    { L2 with current_item := none }
  | none => { L with selected_data := (∅ : Finset ℕ), current_item := none }

/-- The guard in the overriding `remove_selected`: Python compares the saved
selection with the singleton set `{self._current_item}`, whose element may be
`None`; a set of integers equals it exactly when the current item is an index
`c` and the selection is `{c}`. -/
def selEqCurrentItem (sel : Finset ℕ) : Option ℕ → Bool
  | some c => sel = {c}
  | none => false

/-- Source overriding `remove_selected`: copy the selection, remove via the
base layer (the REMOVED handler runs and may update `current_item`), then emit
`roi_removed` with the copied selection unless it equals the singleton of the
(post-removal) current item. -/
def remove_selected (L : Layer) : Layer :=
  let selected := L.selected_data
  let L1 := super_remove_selected L false
  if selEqCurrentItem selected L1.current_item then L1
  else emit L1 (.roiRemoved selected)

/-- Source `show_all` setter.  Switching on: clear the selection, prepend the
hidden data / features / shape types to the live ones, restore the saved or
hidden current item and selection, clear the hidden buffer, restore the text
visibility stored in the buffer.  Switching off: snapshot the whole live state
into the buffer; with a current item, pop just it back out and re-add it alone
as the sole live shape at index 0, otherwise empty the live list. -/
def set_show_all (L : Layer) (v : Bool) : Layer :=
  if L.show_all = v then L
  else
    let cur := L.current_item
    if v then
      let L1 := { L with selected_data := (∅ : Finset ℕ) }
      let old_shape_type := L1.shape_type
      let L2 := set_data L1 (L1.hidden.data ++ L1.data)
      let L3 := set_features L2 (L2.hidden.features ++ L2.features)
      let L4 :=
        if L3.hidden.shape_type ++ old_shape_type = [] then L3
        else { L3 with shape_type := L3.hidden.shape_type ++ old_shape_type }
      let L5 := { L4 with current_item := cur }
      let L6 :=
        match L5.hidden.current_item with
        | some hc => { L5 with current_item := some hc, selected_data := {hc} }
        | none => { L5 with selected_data := L5.hidden.selected_data }
      let L7 := { L6 with hidden := L6.hidden.clear }
      let L8 := { L7 with text_visible := L7.hidden.display_text }
      { L8 with show_all := true }
    else
      let L1 := { L with hidden :=
        (L.hidden.update L.data L.features L.shape_type L.selected_data cur L.text_visible) }
      match cur with
      | some c =>
        let popped := L1.hidden.pop c
        let L2 := { L1 with hidden := popped.2, current_item := none }
        let L3 := set_data L2 []
        let L4 := add_shape L3 popped.1.1 popped.1.2 false
        let L5 := { L4 with current_item := some 0, selected_data := ({0} : Finset ℕ) }
        { L5 with text_visible := false, show_all := false }
      | none =>
        let L2 := { L1 with selected_data := (∅ : Finset ℕ) }
        let L3 := set_data L2 []
        let L4 := { L3 with current_item := none }
        { L4 with text_visible := false, show_all := false }

/-- The exported plain collection: source dataclass `RoiData` restricted to
the fields `get_roi_data` fills. -/
structure RoiData where
  data : List ShapeData := []
  shape_type : List String := []
  names : Option (List String) := none
deriving DecidableEq

/-- Source `get_roi_data`, with the state after the call made explicit.  In
the `show_all` branch the napari `data` / `shape_type` properties build fresh
lists, so the `pop` calls only affect the returned collection; in the hidden
branch the dataclass lists are aliased and the `pop` calls mutate the Hidden
Buffer itself.  Headless (no manager widget), `names` stays `None`. -/
def get_roi_data (L : Layer) : RoiData × Layer :=
  if L.show_all then
    match L.current_item with
    | some c => ({ data := L.data.eraseIdx c, shape_type := L.shape_type.eraseIdx c }, L)
    | none => ({ data := L.data, shape_type := L.shape_type }, L)
  else
    match L.current_item with
    | some c =>
      let sd := L.hidden.data.eraseIdx c
      let st := L.hidden.shape_type.eraseIdx c
      ({ data := sd, shape_type := st },
       { L with hidden := { L.hidden with data := sd, shape_type := st } })
    | none => ({ data := L.hidden.data, shape_type := L.hidden.shape_type }, L)

/-- The layer as constructed by `__init__`: empty collection, `show_all` on,
no current item, text hidden, empty feature table. -/
def init_layer : Layer := {}

/-- Widget-level `QRoiManager.register(data, shape_type)`: add the shape (with
the data-event handler active), then register it. -/
def manager_register (L : Layer) (s : ShapeData) (kind : String) : Layer :=
  register_roi (add_shape L s kind false)

/-! ## Concrete scenario states used by the results -/

/-- An axis-aligned 2x2 test rectangle spanning columns `k` to `m` (both
passed as literals, so kernel evaluation of the scenarios needs no rational
arithmetic). -/
def rect (k m : ℚ) : ShapeData :=
  [(0, k), (0, m), (2, m), (2, k)]

/-- The scenario of testable property 7: register three rectangles with
`show_all` on, switch `show_all` off, register two more, switch `show_all`
back on. -/
def scenarioC1 : Layer :=
  let s1 := manager_register init_layer (rect 0 2) "rectangle"
  let s2 := manager_register s1 (rect 10 12) "rectangle"
  let s3 := manager_register s2 (rect 20 22) "rectangle"
  let s4 := set_show_all s3 false
  let s5 := manager_register s4 (rect 30 32) "rectangle"
  let s6 := manager_register s5 (rect 40 42) "rectangle"
  set_show_all s6 true

/-- Register one rectangle, then draw a second one without registering it:
the drawn shape is the uncommitted current item, at live index 1, and is the
only selected shape. -/
def scenarioC7pre : Layer :=
  add_shape (manager_register init_layer (rect 0 2) "rectangle") (rect 10 12) "rectangle" false

/-- Register two rectangles, switch `show_all` off (both park in the Hidden
Buffer), then draw a third, uncommitted shape (live index 0). -/
def scenarioC8pre : Layer :=
  let s1 := manager_register init_layer (rect 0 2) "rectangle"
  let s2 := manager_register s1 (rect 10 12) "rectangle"
  let s3 := set_show_all s2 false
  add_shape s3 (rect 20 22) "rectangle" false

/-! ## Tolerance predicate for the round-trip claims

`numpy.testing.assert_allclose(actual, desired, rtol=1e-5, atol=1e-8)` accepts
`actual` when `|actual - desired| <= atol + rtol * |desired|`, elementwise. -/

/-- One coordinate within the claimed `1e-8` absolute / `1e-5` relative
tolerance of the desired value. -/
def ratCloseB (actual desired : ℚ) : Bool :=
  |actual - desired| ≤ 1 / 100000000 + |desired| / 100000

/-- One point within tolerance, both coordinates. -/
def pointCloseB (p q : ℚ × ℚ) : Bool :=
  ratCloseB p.1 q.1 && ratCloseB p.2 q.2

/-- Two corner lists within tolerance: same length, pointwise close. -/
def listCloseB : List (ℚ × ℚ) → List (ℚ × ℚ) → Bool
  | [], [] => true
  | p :: ps, q :: qs => pointCloseB p q && listCloseB ps qs
  | _, _ => false

/-- A decode result reproduces a shape's corners within tolerance (a failed or
empty decode does not). -/
def decodedCloseB (e : Except String (Option RoiTuple)) (s : RoiTuple) : Bool :=
  match e with
  | .ok (some t) => listCloseB t.data s.data
  | _ => false

/-- An axis-aligned rectangle with integer corners (not on the half-integer
pixel-boundary grid). -/
def rectC6 : RoiTuple :=
  { data := [(0, 0), (0, 2), (2, 2), (2, 0)], shape_type := "rectangle" }

/-- A pixel-boundary coordinate: the half-integer below the integer `a`.
Decoded ImageJ integer bounds always land on this grid (they are integer
bounds shifted by `-0.5`). -/
def halfOf (a : ℤ) : ℚ :=
  a - 1/2

/-- Records whose decode takes the undefined-subtype POLYGON branch. -/
def IsUndefinedPolygon (r : IjRoi) : Prop :=
  r.subtype = ROI_SUBTYPE.UNDEFINED ∧ r.roitype = ROI_TYPE.POLYGON

instance (r : IjRoi) : Decidable (IsUndefinedPolygon r) := by
  unfold IsUndefinedPolygon; infer_instance

/-- A small concrete polygon record (three integer vertices). -/
def polyRec (k : ℤ) : IjRoi :=
  { roitype := .POLYGON, subtype := .UNDEFINED,
    integer_coordinates := [(0, 0), (k, 0), (0, k)], n_coordinates := 3 }

/-- A concrete POINT record. -/
def pointRec : IjRoi :=
  { roitype := .POINT, subtype := .UNDEFINED, integer_coordinates := [(1, 1)],
    n_coordinates := 1 }

/-! ## Theorems -/

/-- C4: for every 32-bit IEEE-754 bit pattern (the value-level content of a
representable float) and every byte order, `decode_rotated_roi_width` inverts
`encode_rotated_roi_width`: the packed `[u8, u8, i16]` reinterpretation of the
four float bytes is decoded back to exactly the same four bytes, hence the
same float. -/
theorem c4_pack_roundtrip (bits : ℕ) (h : bits < 2 ^ 32) (bo : ByteOrder) :
    decode_rotated_roi_width (encode_rotated_roi_width bits bo) bo = bits := by
  cases bo <;>
    simp only [encode_rotated_roi_width, decode_rotated_roi_width, packF32, unpackF32,
      word16OfBytes, bytesOfWord16, toSigned16, ofSigned16] <;>
    split_ifs <;> omega

/-- Witness for C4 at the bit pattern of the float `1.5` (0x3FC00000), both
byte orders. -/
theorem c4_pack_roundtrip_witness :
    1069547520 < 2 ^ 32 ∧
    decode_rotated_roi_width (encode_rotated_roi_width 1069547520 ByteOrder.big)
      ByteOrder.big = 1069547520 ∧
    decode_rotated_roi_width (encode_rotated_roi_width 1069547520 ByteOrder.little)
      ByteOrder.little = 1069547520 :=
  ⟨by norm_num, c4_pack_roundtrip 1069547520 (by norm_num) ByteOrder.big,
    c4_pack_roundtrip 1069547520 (by norm_num) ByteOrder.little⟩

/-- C10: `HiddenShapes.clear` empties only the data list, the kind list and
the current-item pointer; the feature table, the selected-index set (and the
text-visibility flag) keep their previous contents, and the reported size
after clearing is 0. -/
theorem c10_clear_frame (h : HiddenShapes) :
    h.clear.data = [] ∧ h.clear.shape_type = [] ∧ h.clear.current_item = none ∧
    h.clear.features = h.features ∧ h.clear.selected_data = h.selected_data ∧
    h.clear.display_text = h.display_text ∧ h.clear.len = 0 := by
  simp [HiddenShapes.clear, HiddenShapes.len]

/-- C1 (code bug): the spec scenario — register three rectangles with
`show_all` on, switch it off, register two more, switch it back on — leaves
six live shapes, not five: `register_roi` with `show_all` off copies the
current shape into the Hidden Buffer but also leaves it in the live sequence,
so the last shape registered while hidden is merged back a second time. -/
theorem c1_register_while_hidden_duplicates :
    scenarioC1.data.length = 6 ∧
    scenarioC1.data = [rect 0 2, rect 10 12, rect 20 22, rect 30 32, rect 40 42, rect 40 42] ∧
    scenarioC1.show_all = true ∧ scenarioC1.current_item = none := by
  refine ⟨rfl, by decide, rfl, rfl⟩

/-- C3 (code bug): after the same add/register/show-all-toggle sequence, the
live feature `id` column is `[0, 1, 2, 0, 1, 2]` — the `show_all := true`
transition overwrites the relabelled column with the concatenation of the
hidden snapshot's rows and the live rows and never relabels it. -/
theorem c3_feature_ids_not_contiguous :
    scenarioC1.features = [0, 1, 2, 0, 1, 2] ∧
    scenarioC1.features ≠ List.range scenarioC1.features.length := by
  refine ⟨by decide, by decide⟩

/-- C7 (code bug): with one registered rectangle and one drawn, uncommitted
current shape (live index 1, the only selected index), `remove_selected`
removes only the uncommitted current item and still emits `roi_removed {1}`:
the REMOVED handler clears `current_item` before the guard
`selected != {current_item}` is evaluated, so the guard can never recognise
this case. -/
theorem c7_removing_current_emits :
    scenarioC7pre.current_item = some 1 ∧
    scenarioC7pre.selected_data = {1} ∧
    (remove_selected scenarioC7pre).notifications =
      [Notification.roiAdded 0 "rectangle", Notification.roiRemoved {1}] := by
  refine ⟨rfl, by decide, by decide⟩

/-- C8 (code bug): with `show_all` off, two registered shapes in the Hidden
Buffer and an uncommitted current shape at live index 0, `get_roi_data`
mutates the Hidden Buffer: the hidden branch aliases the buffer's lists and
`pop(current_item)` deletes the first registered shape from the buffer itself
(and from the export). -/
theorem c8_get_roi_data_mutates_hidden :
    scenarioC8pre.hidden.data = [rect 0 2, rect 10 12] ∧
    scenarioC8pre.current_item = some 0 ∧ scenarioC8pre.show_all = false ∧
    (get_roi_data scenarioC8pre).2.hidden.data = [rect 10 12] ∧
    (get_roi_data scenarioC8pre).2.hidden.data ≠ scenarioC8pre.hidden.data := by
  refine ⟨by decide, rfl, rfl, by decide, by decide⟩

/-- C9: on an upstream removal (the base layer's `remove_selected`, whose
REMOVED event the `_on_data_change` handler processes), a current item that is
among the removed indices is cleared, and otherwise it is shifted down by the
number of removed indices smaller than it.  (An empty selection removes
nothing and leaves the current item in place, consistently with the shift
rule.) -/
theorem c9_current_item_shift (L : Layer) (c : ℕ) (h : L.current_item = some c) :
    (super_remove_selected L false).current_item =
      if c ∈ L.selected_data then none
      else some (c - (L.selected_data.filter (fun i => i < c)).card) := by
  by_cases hS : L.selected_data = ∅
  · simp [super_remove_selected, hS, h]
  · simp only [super_remove_selected, if_neg hS, Bool.false_eq_true, if_false,
      handle_removed, relabel_feature_id, h]
    split_ifs with hc <;> simp

/-- Witness for C9: a live sequence of four shapes with `current_item = 3`;
removing indices `{0, 1}` yields `current_item = 1`. -/
theorem c9_current_item_shift_witness :
    (super_remove_selected
      { data := [rect 0 2, rect 10 12, rect 20 22, rect 30 32],
        shape_type := ["rectangle", "rectangle", "rectangle", "rectangle"],
        features := [0, 1, 2, 3], selected_data := {0, 1},
        current_item := some 3 } false).current_item = some 1 := by
  rw [c9_current_item_shift _ 3 rfl]
  decide

/-- Decoding a POINT record takes the warn-and-skip branch: the result is a
successful decode (no exception) carrying no shape. -/
theorem roi_to_shape_of_point (r : IjRoi) (h1 : r.subtype = ROI_SUBTYPE.UNDEFINED)
    (h2 : r.roitype = ROI_TYPE.POINT) : roi_to_shape r = .ok none := by
  simp [roi_to_shape, h1, h2]

/-- Decoding an undefined-subtype POLYGON record succeeds with a polygon
shape. -/
theorem roi_to_shape_of_polygon (r : IjRoi) (h : IsUndefinedPolygon r) :
    roi_to_shape r =
      .ok (some ⟨_get_coords r, "polygon", r.name, [r.position, r.t_position, r.z_position]⟩) := by
  simp [roi_to_shape, h.1, h.2]

/-- Batch-decoding a list of undefined-subtype POLYGON records yields one
`some` shape per record. -/
theorem decodeAll_of_polygons (A : List IjRoi) (hA : ∀ r ∈ A, IsUndefinedPolygon r) :
    ∃ ts : List RoiTuple, decodeAll A = .ok (ts.map some) ∧ ts.length = A.length := by
  induction A with
  | nil => exact ⟨[], rfl, rfl⟩
  | cons a A ih =>
    obtain ⟨ts, h1, h2⟩ := ih (fun r hr => hA r (List.mem_cons_of_mem _ hr))
    refine ⟨⟨_get_coords a, "polygon", a.name, [a.position, a.t_position, a.z_position]⟩ :: ts,
      ?_, by simp [h2]⟩
    simp only [decodeAll, roi_to_shape_of_polygon a (hA a (List.mem_cons_self _ _)), h1]
    rfl

/-- Concatenating two successfully decoded batches decodes to the
concatenation. -/
theorem decodeAll_append (A B : List IjRoi) (la lb : List (Option RoiTuple))
    (hA : decodeAll A = .ok la) (hB : decodeAll B = .ok lb) :
    decodeAll (A ++ B) = .ok (la ++ lb) := by
  induction A generalizing la with
  | nil =>
    obtain rfl : ([] : List (Option RoiTuple)) = la := by
      simpa [decodeAll] using hA
    simpa using hB
  | cons a A ih =>
    simp only [decodeAll, List.cons_append, bind, Except.bind] at hA ⊢
    cases hdec : roi_to_shape a with
    | error e => simp [hdec] at hA
    | ok s =>
      simp only [hdec] at hA ⊢
      cases hrest : decodeAll A with
      | error e => simp [hrest] at hA
      | ok l2 =>
        simp only [hrest] at hA
        obtain rfl : s :: l2 = la := by simpa [pure, Except.pure] using hA
        rw [show A.append B = A ++ B from rfl, ih l2 hrest]
        simp [pure, Except.pure]

/-- C5: decoding an ImageJ POINT record is a non-fatal skip (`ok none`, not an
error), and a batch with exactly one POINT record among otherwise POLYGON
records loads successfully into a collection holding one shape per polygon
record: the POINT record is skipped, the rest of the batch is processed. -/
theorem c5_point_record_skipped (A B : List IjRoi) (pt : IjRoi)
    (hA : ∀ r ∈ A, IsUndefinedPolygon r) (hB : ∀ r ∈ B, IsUndefinedPolygon r)
    (h1 : pt.subtype = ROI_SUBTYPE.UNDEFINED) (h2 : pt.roitype = ROI_TYPE.POINT) :
    roi_to_shape pt = .ok none ∧
    ∃ l, read_ij_roi (A ++ pt :: B) = .ok l ∧ l.length = A.length + B.length := by
  obtain ⟨ta, ha1, ha2⟩ := decodeAll_of_polygons A hA
  obtain ⟨tb, hb1, hb2⟩ := decodeAll_of_polygons B hB
  have hpt := roi_to_shape_of_point pt h1 h2
  have hmid : decodeAll (pt :: B) = .ok (none :: tb.map some) := by
    simp only [decodeAll, hpt, hb1]
    rfl
  have hall := decodeAll_append A (pt :: B) _ _ ha1 hmid
  refine ⟨hpt, ta ++ tb, ?_, by simp [ha2, hb2]⟩
  simp [read_ij_roi, hall, List.filterMap_append, List.filterMap_map]

/-- Witness for C5: a batch of three polygon records and one POINT record
loads into a collection of exactly three shapes. -/
theorem c5_point_record_skipped_witness :
    roi_to_shape pointRec = .ok none ∧
    ∃ l, read_ij_roi ([polyRec 2, polyRec 3] ++ pointRec :: [polyRec 4]) = .ok l ∧
      l.length = 3 :=
  c5_point_record_skipped [polyRec 2, polyRec 3] [polyRec 4] pointRec
    (by decide) (by decide) (by decide) (by decide)

/-- Round trip of the axis-aligned rectangle encoder for corners in canonical
order: the decoded corners are the integer bounding box of the `+0.5`-shifted
corners (floor of minima, ceiling of maxima), shifted back by `-0.5`. -/
theorem roundtrip_rect_axis_aligned (y0 y1 x0 x1 : ℚ) (hy : y0 ≤ y1) (hx : x0 ≤ x1)
    (name : Option String) :
    roi_to_shape (shape_to_roi_rect_axis_aligned
        ⟨[(y0, x0), (y0, x1), (y1, x1), (y1, x0)], "rectangle", name, []⟩) =
      .ok (some ⟨[
        ((⌊y0 + 1/2⌋ : ℚ) - 1/2, (⌊x0 + 1/2⌋ : ℚ) - 1/2),
        ((⌊y0 + 1/2⌋ : ℚ) - 1/2, (⌈x1 + 1/2⌉ : ℚ) - 1/2),
        ((⌈y1 + 1/2⌉ : ℚ) - 1/2, (⌈x1 + 1/2⌉ : ℚ) - 1/2),
        ((⌈y1 + 1/2⌉ : ℚ) - 1/2, (⌊x0 + 1/2⌋ : ℚ) - 1/2)],
        "rectangle", name, [0, 0, 0]⟩) := by
  have hx2 : x0 + 1/2 ≤ x1 + 1/2 := by linarith
  have hy2 : y0 + 1/2 ≤ y1 + 1/2 := by linarith
  simp only [shape_to_roi_rect_axis_aligned, _get_multidim_kwargs, frompoints,
    List.map_cons, List.map_nil, listMin, listMax, List.foldl, min_self, max_self,
    min_eq_left hy, max_eq_right hy, min_eq_left hx, max_eq_right hx,
    min_eq_left hx2, max_eq_right hx2, min_eq_left hy2, max_eq_right hy2,
    max_eq_left hx, max_eq_left hy, max_eq_left hx2, max_eq_left hy2,
    min_eq_right hx, min_eq_right hy, min_eq_right hx2, min_eq_right hy2]
  simp only [roi_to_shape, reduceIte, _get_coords]
  norm_num

/-- C6 counterexample: `rectC6` is an axis-aligned rectangle (its first two
corners share a row coordinate), yet `decode(encode(rectC6))` is not within
the claimed tolerance of the original corners — the integer corners are
snapped to pixel boundaries, coming back offset by `-0.5` (minima) and `+0.5`
(maxima). -/
theorem c6_counterexample :
    (rectC6.data.map Prod.fst).getD 0 0 = (rectC6.data.map Prod.fst).getD 1 0 ∧
    decodedCloseB (roi_to_shape (shape_to_roi_rect_axis_aligned rectC6)) rectC6 = false := by
  refine ⟨rfl, ?_⟩
  have h := roundtrip_rect_axis_aligned 0 2 0 2 (by norm_num) (by norm_num) none
  have e1 : ⌊(0 : ℚ) + 1/2⌋ = 0 := by
    rw [Int.floor_eq_iff]
    norm_num
  have e2 : ⌈(2 : ℚ) + 1/2⌉ = 3 := by
    rw [Int.ceil_eq_iff]
    norm_num
  rw [e1, e2] at h
  rw [show rectC6 = ⟨[(0, 0), (0, 2), (2, 2), (2, 0)], "rectangle", none, []⟩ from rfl, h]
  simp only [decodedCloseB, listCloseB, pointCloseB, ratCloseB]
  norm_num [abs_of_nonneg]

/-- C6 as amended: for an axis-aligned rectangle whose corners lie on the
pixel-boundary (half-integer) grid, in canonical order, `decode(encode(s))`
reproduces the four corners exactly — on this grid the `+0.5` applied at
encode turns the bounds into exact integers and cancels the `-0.5` applied at
decode. -/
theorem c6_roundtrip_on_pixel_grid (a b c d : ℤ) (hy : a ≤ b) (hx : c ≤ d)
    (name : Option String) :
    roi_to_shape (shape_to_roi_rect_axis_aligned
        ⟨[(halfOf a, halfOf c), (halfOf a, halfOf d), (halfOf b, halfOf d), (halfOf b, halfOf c)],
          "rectangle", name, []⟩) =
      .ok (some ⟨[(halfOf a, halfOf c), (halfOf a, halfOf d),
        (halfOf b, halfOf d), (halfOf b, halfOf c)], "rectangle", name, [0, 0, 0]⟩) := by
  have hy2 : (a : ℚ) ≤ (b : ℚ) := Int.cast_le.mpr hy
  have hx2 : (c : ℚ) ≤ (d : ℚ) := Int.cast_le.mpr hx
  have hy3 : halfOf a ≤ halfOf b := by unfold halfOf; linarith
  have hx3 : halfOf c ≤ halfOf d := by unfold halfOf; linarith
  rw [roundtrip_rect_axis_aligned _ _ _ _ hy3 hx3 name]
  have e1 : ⌊halfOf a + 1/2⌋ = a := by
    rw [show halfOf a + 1/2 = (a : ℚ) by unfold halfOf; ring]
    exact Int.floor_intCast a
  have e2 : ⌈halfOf b + 1/2⌉ = b := by
    rw [show halfOf b + 1/2 = (b : ℚ) by unfold halfOf; ring]
    exact Int.ceil_intCast b
  have e3 : ⌊halfOf c + 1/2⌋ = c := by
    rw [show halfOf c + 1/2 = (c : ℚ) by unfold halfOf; ring]
    exact Int.floor_intCast c
  have e4 : ⌈halfOf d + 1/2⌉ = d := by
    rw [show halfOf d + 1/2 = (d : ℚ) by unfold halfOf; ring]
    exact Int.ceil_intCast d
  rw [e1, e2, e3, e4]
  simp [halfOf]

/-- Witness for the amended C6: the 2x2 rectangle with corners on pixel
boundaries between rows `-0.5 .. 1.5` and columns `0.5 .. 2.5` round-trips
exactly. -/
theorem c6_roundtrip_on_pixel_grid_witness :
    roi_to_shape (shape_to_roi_rect_axis_aligned
        ⟨[(halfOf 0, halfOf 1), (halfOf 0, halfOf 3), (halfOf 2, halfOf 3), (halfOf 2, halfOf 1)],
          "rectangle", none, []⟩) =
      .ok (some ⟨[(halfOf 0, halfOf 1), (halfOf 0, halfOf 3),
        (halfOf 2, halfOf 3), (halfOf 2, halfOf 1)], "rectangle", none, [0, 0, 0]⟩) :=
  c6_roundtrip_on_pixel_grid 0 2 1 3 (by decide) (by decide) none

/-- C2 (code bug): for the rotated ellipse with corners
`(0,0), (2,2), (5,-1), (3,-3)`, encoding and decoding through the analytic
fields moves the center from `(5/2, -1/2)` to `(3/2, -3/2)` — one pixel up and
left — because `roi_to_shape` subtracts 1 from the stored axis endpoints while
`shape_to_roi` stores the edge midpoints unshifted. -/
theorem c2_center_shift :
    centerOf (roi_to_shape_ellipse_rotated (shape_to_roi_ellipse_rotated
        [((0 : ℝ), (0 : ℝ)), (2, 2), (5, -1), (3, -3)])) = (3/2, -3/2) ∧
    centerOf [((0 : ℝ), (0 : ℝ)), (2, 2), (5, -1), (3, -3)] = (5/2, -1/2) ∧
    ((3/2 : ℝ), (-3/2 : ℝ)) ≠ ((5/2 : ℝ), (-1/2 : ℝ)) := by
  refine ⟨?_, ?_, ?_⟩
  · simp only [shape_to_roi_ellipse_rotated, List.map_cons, List.map_nil,
      List.getD_cons_zero, List.getD_cons_succ, roi_to_shape_ellipse_rotated, centerOf,
      List.sum_cons, List.sum_nil, List.length_cons, List.length_nil, Prod.mk.injEq]
    norm_num
  · simp only [centerOf, List.map_cons, List.map_nil, List.sum_cons, List.sum_nil,
      List.length_cons, List.length_nil, Prod.mk.injEq]
    norm_num
  · simp only [ne_eq, Prod.mk.injEq, not_and]
    intro h
    norm_num at h
